import Mathlib

/-!
# Verification of the RDLA diffusion-limited-aggregation simulator

A shallow embedding of the grid module (`src/grid.rs`) and the simulation
engine (`src/dla.rs`) of the RDLA repository, together with theorems settling
the specification claims about seed construction, the per-step state machine,
the spawn-location policy, target-count changes, and the persistence codec.

Modelling conventions:
* Rust `usize`/`u64` values are modelled as `Nat`; where the 64-bit range
  matters (bincode serialization, `checked_mul`) the bound `2 ^ 64` appears
  explicitly as a hypothesis or guard.
* Grid construction failures (a failed `assert!`, an out-of-bounds index
  assignment, or `checked_mul` overflow, all of which panic in Rust) are
  modelled as `Option.none`.
* Engine operations that can panic at runtime (the `random_walk` invariant
  check, the `unwrap` on deserialization) return `Except String`, with
  `.error` standing for the panic.
* `thread_rng().gen_range(0..n)` (an arbitrary value below `n`) is modelled
  by an explicitly passed draw, reduced modulo `n` where the bound is needed.
* The `f32` square root in `Grid::distance` is modelled by `Nat.sqrt`; no
  claim below depends on its rounding behaviour.
-/

namespace RDLA

/-- `Particle` from `src/grid.rs`: one cell of the grid. -/
structure Particle where
  filled : Bool
  id : Nat
deriving Repr, DecidableEq, Inhabited

/-- `Grid` from `src/grid.rs`: a 1-D vector representing a 2-D grid. -/
structure Grid where
  cells : List Particle
  width : Nat
  height : Nat
deriving Repr, DecidableEq, Inhabited

/-- The seed-pattern tag `GridType` from `src/config.rs`. -/
inductive GridType where
  | Center
  | BottomEdge
  | AllEdges
  | FourDots
  | RandFive
  | Circle
deriving Repr, DecidableEq

/-- `Grid::get_idx`: flat index of position `(x, y)`. -/
def get_idx (width x y : Nat) : Nat := x + y * width

/-- `Grid::filled`: the `filled` flag of the cell at `idx`.  Rust panics on an
out-of-bounds index; every read performed by the modelled operations under the
theorems' hypotheses is in bounds, so the out-of-bounds default is never
exercised there. -/
def Grid.filled (g : Grid) (idx : Nat) : Bool :=
  (g.cells.getD idx default).filled

/-- In-place update of one cell of a cell vector (`self.cells[idx] = ...`).
Rust panics on an out-of-bounds index; every write performed by the modelled
engine operations under the theorems' hypotheses is in bounds. -/
def modifyCell (cells : List Particle) (idx : Nat) (f : Particle → Particle) :
    List Particle :=
  match cells, idx with
  | [], _ => []
  | c :: cs, 0 => f c :: cs
  | c :: cs, n + 1 => c :: modifyCell cs n f

/-- `Grid::set_fill`: set the `filled` flag of the cell at `idx`. -/
def Grid.set_fill (g : Grid) (idx : Nat) (b : Bool) : Grid :=
  { g with cells := modifyCell g.cells idx (fun p => { p with filled := b }) }

/-- `self.grid.cells[idx].id = v` from `DlaGrid::update`. -/
def Grid.set_id (g : Grid) (idx : Nat) (v : Nat) : Grid :=
  { g with cells := modifyCell g.cells idx (fun p => { p with id := v }) }

/-- `Grid::stuck_particles`: count of filled cells. -/
def Grid.stuck_particles (g : Grid) : Nat :=
  g.cells.countP (fun p => p.filled)

/-! ### Seed catalog (`src/grid.rs`) -/

/-- `Grid::cells_empty`: an all-`false` vector of `width * height` cells.
`assert!(width != 0 && height != 0)` and the `checked_mul` overflow check are
modelled as `none`. -/
def cells_empty (width height : Nat) : Option (List Bool) :=
  if width = 0 ∨ height = 0 then none
  else if width * height < 2 ^ 64 then some (List.replicate (width * height) false)
  else none

/-- `new[idx] = true` on a `Vec<bool>`: Rust panics when `idx` is out of
bounds, modelled as `none`. -/
def setTrue (l : List Bool) (idx : Nat) : Option (List Bool) :=
  if idx < l.length then some (l.set idx true) else none

/-- `Grid::cells_center`: fills the single cell at flat index
`width * height / 2 + width / 2`. -/
def cells_center (width height : Nat) : Option (List Bool) :=
  (cells_empty width height).bind fun base =>
    setTrue base (width * height / 2 + width / 2)

/-- `Grid::cells_bottom_edge`: fills the bottom row.  Every index written is
in bounds, so the loop is modelled with total `List.set`. -/
def cells_bottom_edge (width height : Nat) : Option (List Bool) :=
  (cells_empty width height).map fun base =>
    (List.range width).foldl (fun acc x => acc.set (get_idx width x (height - 1)) true) base

/-- `Grid::cells_all_edges`: bottom edge plus top row and both columns. -/
def cells_all_edges (width height : Nat) : Option (List Bool) :=
  (cells_bottom_edge width height).map fun base =>
    let withTop := (List.range width).foldl (fun acc x => acc.set (get_idx width x 0) true) base
    let withLeft := (List.range height).foldl (fun acc y => acc.set (get_idx width 0 y) true) withTop
    (List.range height).foldl (fun acc y => acc.set (get_idx width (width - 1) y) true) withLeft

/-- `Grid::cells_four_dots`: fills the cells `tl`, `tr`, `bl`, `br` computed
with `tl_y = height / 3`, `bl_y = tl_y * 2`, `tl_x = width / 3`,
`tr_x = tl_x * 2`. -/
def cells_four_dots (width height : Nat) : Option (List Bool) :=
  (cells_empty width height).bind fun base =>
    let tl_y := height / 3
    let bl_y := tl_y * 2
    let tl_x := width / 3
    let tr_x := tl_x * 2
    (setTrue base (get_idx width tl_x tl_y)).bind fun l1 =>
    (setTrue l1 (get_idx width tr_x tl_y)).bind fun l2 =>
    (setTrue l2 (get_idx width tl_x bl_y)).bind fun l3 =>
    setTrue l3 (get_idx width tr_x bl_y)

/-- `Grid::cells_random5`: five cells drawn at random (with replacement).
`gen_range(0..width)` is modelled by reducing the supplied draw modulo the
bound; every index written is then in bounds. -/
def cells_random5 (rand : Nat → Nat × Nat) (width height : Nat) :
    Option (List Bool) :=
  (cells_empty width height).map fun base =>
    (List.range 5).foldl
      (fun acc k =>
        acc.set (get_idx width ((rand k).1 % width) ((rand k).2 % height)) true)
      base

/-- `Grid::distance`: Euclidean distance truncated to an integer.  The source
casts to `f32` and truncates `sqrt`; modelled with `Nat.sqrt` (no claim
depends on the rounding). -/
def distance (x y x2 y2 : Nat) : Nat :=
  Nat.sqrt ((((x : Int) - x2).natAbs ^ 2 + ((y : Int) - y2).natAbs ^ 2))

/-- `Grid::dist_to_center`. -/
def Grid.dist_to_center (g : Grid) (x y : Nat) : Nat :=
  distance x y (g.width / 2) (g.height / 2)

/-- `Grid::cells_circle`: a thin ring of radius `radius` around the center.
The `assert!(radius < width / 2 && radius < height / 2)` is modelled as
`none`; every index written by the fill loop is in bounds. -/
def cells_circle (width height radius : Nat) : Option (List Bool) :=
  (cells_empty width height).bind fun base =>
    if radius < width / 2 ∧ radius < height / 2 then
      some ((List.range width).foldl
        (fun acc x =>
          (List.range height).foldl
            (fun acc2 y =>
              if distance x y (width / 2) (height / 2) = radius then
                acc2.set (get_idx width x y) true
              else acc2)
            acc)
        base)
    else none

/-- The `Vec<bool> → Vec<Particle>` wrapping loop at the end of `Grid::from`:
each seed value becomes a `Particle` with `id = 0`. -/
def boolsToParticles (l : List Bool) : List Particle :=
  l.map fun b => { filled := b, id := 0 }

/-- `Grid::from`: build a grid of the given seed kind.  The `Circle` branch
always passes `min(width, height) / 10` as the radius; no caller-supplied
radius exists.  `rand` models `thread_rng` and is consulted only by the
`RandFive` branch. -/
def Grid.from (rand : Nat → Nat × Nat) (grid_type : GridType)
    (width height : Nat) : Option Grid :=
  let cellsOpt :=
    match grid_type with
    | .BottomEdge => cells_bottom_edge width height
    | .AllEdges => cells_all_edges width height
    | .FourDots => cells_four_dots width height
    | .RandFive => cells_random5 rand width height
    | .Circle => cells_circle width height (min width height / 10)
    | .Center => cells_center width height
  cellsOpt.map fun c => { cells := boolsToParticles c, width := width, height := height }

/-! ### Simulation engine (`src/dla.rs`) -/

/-- The `Particle` struct of `src/dla.rs` (the active walker); named
`ActiveParticle` here to avoid clashing with the grid-cell `Particle`. -/
structure ActiveParticle where
  exists_ : Bool
  pos : Nat × Nat
deriving Repr, DecidableEq, Inhabited

/-- `DlaGrid` from `src/dla.rs`.  The purely visual fields (`fill_color`,
`empty_color`, `theme`) are omitted: no operation modelled here reads or
writes them. -/
structure DlaGrid where
  grid : Grid
  cur_part : ActiveParticle
  stuck_particles : Nat
  is_complete : Bool
  particles : Nat
  updates : Nat
  paused : Bool
  grid_type : GridType
  spawn_radius : Option Nat
  do_resize : Bool
deriving Repr, DecidableEq

/-- `DlaGrid::get_neighbors`: the Moore neighborhood as signed coordinates
(they may lie off the grid). -/
def get_neighbors (x y : Nat) : List (Int × Int) :=
  let tx : Int := x
  let ty : Int := y
  [(tx - 1, ty - 1), (tx, ty - 1), (tx + 1, ty - 1),
   (tx - 1, ty), (tx + 1, ty),
   (tx - 1, ty + 1), (tx, ty + 1), (tx + 1, ty + 1)]

/-- `DlaGrid::valid_grid_pos`. -/
def valid_grid_pos (g : Grid) (pos : Int × Int) : Bool :=
  decide (pos.1 < (g.width : Int)) && decide (0 ≤ pos.1) &&
  decide (pos.2 < (g.height : Int)) && decide (0 ≤ pos.2)

/-- `DlaGrid::should_stick`: true when some in-bounds Moore neighbor of
`(x, y)` is filled. -/
def should_stick (g : Grid) (x y : Nat) : Bool :=
  (get_neighbors x y).any fun p =>
    valid_grid_pos g p && g.filled (get_idx g.width p.1.toNat p.2.toNat)

/-- The candidate vector built by `DlaGrid::random_walk`: the in-bounds,
unfilled Moore neighbors of `(x, y)`.  The `gen_range(0..num_neighbors)`
draw is modelled in `random_walk` by reducing `r` modulo this list's
length. -/
def valid_neighbors (g : Grid) (x y : Nat) : List (Int × Int) :=
  (get_neighbors x y).filter fun p =>
    valid_grid_pos g p && !(g.filled (get_idx g.width p.1.toNat p.2.toNat))

/-- The body of `DlaGrid::random_walk` after the candidate vector is built:
pick a uniformly drawn candidate, or `panic!` when none exists. -/
def random_walk (g : Grid) (x y : Nat) (r : Nat) : Except String (Nat × Nat) :=
  match valid_neighbors g x y with
  | [] => .error "No neighbors found for random walk! This is a bug"
  | q :: qs =>
    let p := (q :: qs).getD (r % (q :: qs).length) q
    .ok (p.1.toNat, p.2.toNat)

/-- A spawn candidate is valid when its cell is unfilled and (if an exclusion
radius is set) its distance to the center exceeds the radius: the test of the
loop body of `DlaGrid::random_loc`. -/
def spawn_valid (s : DlaGrid) (d : Nat × Nat) : Bool :=
  let outside_radius :=
    match s.spawn_radius with
    | some radius => decide (s.grid.dist_to_center d.1 d.2 > radius)
    | none => true
  !(s.grid.filled (get_idx s.grid.width d.1 d.2)) && outside_radius

/-- The retry loop of `DlaGrid::random_loc`.  `draws i` models the pair of
`gen_range` calls of iteration `i`; `fuel` counts the draws still allowed
(`MAX_RETRIES - i`).  Returns the chosen position and whether the loop gave
up. -/
def random_loc_go (s : DlaGrid) (draws : Nat → Nat × Nat) :
    Nat → Nat → (Nat × Nat) × Bool
  | i, 0 => (draws i, true)
  | i, fuel + 1 =>
    let d := draws i
    if spawn_valid s d then (d, false)
    else if fuel = 0 then (d, true)
    else random_loc_go s draws (i + 1) fuel

/-- `DlaGrid::random_loc` (`MAX_RETRIES = 1000`): returns a spawn location;
after 1000 consecutive invalid draws it sets `is_complete` and returns the
last draw anyway. -/
def random_loc (draws : Nat → Nat × Nat) (s : DlaGrid) :
    (Nat × Nat) × DlaGrid :=
  let res := random_loc_go s draws 0 1000
  (res.1, if res.2 then { s with is_complete := true } else s)

/-- The move-or-spawn half of `DlaGrid::update` (the `if self.cur_part.exists`
block): either random-walk the active particle (clearing its old cell) or
spawn a new one via `random_loc`. -/
def spawn_or_move (rwr : Nat) (draws : Nat → Nat × Nat) (s : DlaGrid) :
    Except String DlaGrid :=
  if s.cur_part.exists_ then
    match random_walk s.grid s.cur_part.pos.1 s.cur_part.pos.2 rwr with
    | .error e => .error e
    | .ok newPos =>
      let old_idx := get_idx s.grid.width s.cur_part.pos.1 s.cur_part.pos.2
      .ok { s with grid := s.grid.set_fill old_idx false,
                   cur_part := { exists_ := true, pos := newPos } }
  else
    let res := random_loc draws s
    .ok { res.2 with cur_part := { exists_ := true, pos := res.1 } }

/-- The stick check of `DlaGrid::update`: on sticking, clear `exists`,
increment `stuck_particles`, and set the cell's `id` to the incremented
count plus one (`self.stuck_particles + 1` after `self.stuck_particles += 1`). -/
def stick_phase (s : DlaGrid) : DlaGrid :=
  if should_stick s.grid s.cur_part.pos.1 s.cur_part.pos.2 then
    let idx := get_idx s.grid.width s.cur_part.pos.1 s.cur_part.pos.2
    { s with cur_part := { s.cur_part with exists_ := false },
             stuck_particles := s.stuck_particles + 1,
             grid := s.grid.set_id idx (s.stuck_particles + 1 + 1) }
  else s

/-- The unconditional fill at the end of `DlaGrid::update`: the particle's
current cell is marked filled. -/
def fill_phase (s : DlaGrid) : DlaGrid :=
  { s with grid :=
      s.grid.set_fill (get_idx s.grid.width s.cur_part.pos.1 s.cur_part.pos.2) true }

/-- The completion check at the end of `DlaGrid::update`
(`stuck_particles >= particles`). -/
def complete_phase (s : DlaGrid) : DlaGrid :=
  if s.particles ≤ s.stuck_particles then { s with is_complete := true } else s

/-- `DlaGrid::update`: one simulation step.  `rwr` models the random-walk
draw and `draws` the spawn-location draws. -/
def update (rwr : Nat) (draws : Nat → Nat × Nat) (s : DlaGrid) :
    Except String DlaGrid :=
  if s.is_complete then .ok s
  else
    match spawn_or_move rwr draws { s with updates := s.updates + 1 } with
    | .error e => .error e
    | .ok s2 => .ok (complete_phase (fill_phase (stick_phase s2)))

/-- `DlaGrid::handle_particles_changed`: change the target particle count.
The violated `assert!(self.paused || self.is_complete)` is modelled as
`.error`. -/
def handle_particles_changed (s : DlaGrid) (particles : Nat) :
    Except String DlaGrid :=
  if !(s.paused || s.is_complete) then
    .error "assertion failed: self.paused || self.is_complete"
  else if s.particles ≠ particles then
    let s' :=
      if s.is_complete && decide (s.particles < particles) then
        { s with is_complete := false, paused := true }
      else if s.stuck_particles = particles then
        { s with is_complete := true }
      else s
    .ok { s' with particles := particles }
  else .ok s

/-! ### Persistence codec (`Grid::to_file` / `Grid::from_file`)

`bincode::serialize` with the default configuration writes struct fields in
declaration order, a `Vec` as a `u64` length followed by its elements, a
`bool` as one byte (`1`/`0`, any other byte is a decode error), and
`usize` as a fixed-width little-endian `u64`.  Bytes are modelled as `Nat`
(each below 256 in produced output). -/

/-- `k`-byte little-endian encoding of `n` (the fixed-int encoding used by
bincode for `u64`/`usize` with `k = 8`). -/
def serLE : Nat → Nat → List Nat
  | 0, _ => []
  | k + 1, n => n % 256 :: serLE k (n / 256)

/-- Parse a `k`-byte little-endian integer, returning it and the remaining
bytes; fails when fewer than `k` bytes remain. -/
def parseLE : Nat → List Nat → Option (Nat × List Nat)
  | 0, bs => some (0, bs)
  | _ + 1, [] => none
  | k + 1, b :: bs =>
    match parseLE k bs with
    | none => none
    | some (v, rest) => some (b + 256 * v, rest)

/-- bincode encoding of a `bool`: one byte, `1` for true, `0` for false. -/
def serBool (b : Bool) : List Nat :=
  [if b then 1 else 0]

/-- bincode decoding of a `bool`: `0`/`1` accepted, anything else (or an
empty input) is a decode error. -/
def parseBool : List Nat → Option (Bool × List Nat)
  | 0 :: bs => some (false, bs)
  | 1 :: bs => some (true, bs)
  | _ => none

/-- bincode encoding of a grid cell (`Particle`): `filled` then `id`. -/
def serParticle (p : Particle) : List Nat :=
  serBool p.filled ++ serLE 8 p.id

/-- bincode decoding of one grid cell. -/
def parseParticle (bs : List Nat) : Option (Particle × List Nat) := do
  let (f, bs) ← parseBool bs
  let (i, bs) ← parseLE 8 bs
  pure ({ filled := f, id := i }, bs)

/-- bincode encoding of the elements of `cells`. -/
def serParticles : List Particle → List Nat
  | [] => []
  | p :: ps => serParticle p ++ serParticles ps

/-- bincode decoding of `count` consecutive cells. -/
def parseParticles : Nat → List Nat → Option (List Particle × List Nat)
  | 0, bs => some ([], bs)
  | k + 1, bs => do
    let (p, bs) ← parseParticle bs
    let (ps, bs) ← parseParticles k bs
    pure (p :: ps, bs)

/-- `bincode::serialize(&grid)`: `cells` (length-prefixed), `width`,
`height`. -/
def serializeGrid (g : Grid) : List Nat :=
  serLE 8 g.cells.length ++ serParticles g.cells ++
  serLE 8 g.width ++ serLE 8 g.height

/-- `bincode::deserialize::<Grid>`: `none` on any decode error.  Like
bincode 1.x, trailing bytes are not rejected. -/
def deserializeGrid (bs : List Nat) : Option Grid := do
  let (len, bs) ← parseLE 8 bs
  let (cells, bs) ← parseParticles len bs
  let (w, bs) ← parseLE 8 bs
  let (h, _) ← parseLE 8 bs
  pure { cells := cells, width := w, height := h }

/-- `Grid::to_file`: serialize the grid and compress the file with gzip.
The external `gzip` binary is modelled by the caller-supplied `comp`; the
result is the content of the produced `.gz` file. -/
def to_file (comp : List Nat → List Nat) (g : Grid) : List Nat :=
  comp (serializeGrid g)

/-- `Grid::from_file`.  `isGz`: the path ends in `.gz` (decompression runs);
`gzErr`: the external `gzip --decompress` produced diagnostic output on
stderr (return `none`); `stored`: the stored file's bytes, `none` when
`fs::read` fails (return `none`); `decomp` models the external
decompressor.  A deserialization failure hits
`bincode::deserialize(..).unwrap()`, a panic, modelled as `.error`. -/
def from_file (isGz gzErr : Bool) (decomp : List Nat → List Nat)
    (stored : Option (List Nat)) : Except String (Option Grid) :=
  if isGz && gzErr then .ok none
  else
    match stored with
    | none => .ok none
    | some bytes =>
      let serialized := if isGz then decomp bytes else bytes
      match deserializeGrid serialized with
      | some g => .ok (some g)
      | none => .error "called Option.unwrap on a deserialization error"

/-- Well-formedness facts that hold of every Rust `Grid` by the types alone
(`usize` is 64-bit): they are what the `Nat` embedding needs for the
serialization round trip. -/
def wfGrid (g : Grid) : Prop :=
  g.cells.length < 2 ^ 64 ∧ g.width < 2 ^ 64 ∧ g.height < 2 ^ 64 ∧
  ∀ p ∈ g.cells, p.id < 2 ^ 64

instance (g : Grid) : Decidable (wfGrid g) := by
  unfold wfGrid
  infer_instance

/-! ### Shared helper lemmas -/

theorem get_idx_lt {w h x y : Nat} (hx : x < w) (hy : y < h) :
    get_idx w x y < w * h := by
  unfold get_idx
  calc x + y * w < w + y * w := by omega
    _ = (y + 1) * w := by ring
    _ ≤ h * w := Nat.mul_le_mul_right _ hy
    _ = w * h := Nat.mul_comm _ _

theorem modifyCell_length (cells : List Particle) (idx : Nat)
    (f : Particle → Particle) : (modifyCell cells idx f).length = cells.length := by
  induction cells generalizing idx with
  | nil => rfl
  | cons c cs ih =>
    cases idx with
    | zero => rfl
    | succ n => simpa [modifyCell] using ih n

theorem getD_modifyCell_self (cells : List Particle) (idx : Nat)
    (f : Particle → Particle) (d : Particle) (h : idx < cells.length) :
    (modifyCell cells idx f).getD idx d = f (cells.getD idx d) := by
  induction cells generalizing idx with
  | nil => simp at h
  | cons c cs ih =>
    cases idx with
    | zero => rfl
    | succ n =>
      simp only [modifyCell, List.getD_cons_succ]
      exact ih n (by simpa using h)

/-! ### C9 — step is a no-op once complete -/

/-- C9: when `is_complete` holds, `update` (the `step()` of the spec) leaves
the entire simulation state unchanged. -/
theorem update_complete_noop (rwr : Nat) (draws : Nat → Nat × Nat)
    (s : DlaGrid) (hc : s.is_complete = true) :
    update rwr draws s = .ok s := by
  simp [update, hc]

/-- Witness for C9 at a concrete completed state. -/
theorem update_complete_noop_witness :
    update 0 (fun _ => (0, 0))
      { grid := { cells := [{ filled := true, id := 0 }], width := 1, height := 1 },
        cur_part := { exists_ := false, pos := (0, 0) },
        stuck_particles := 1, is_complete := true, particles := 1,
        updates := 5, paused := false, grid_type := .Center,
        spawn_radius := none, do_resize := false }
    = .ok
      { grid := { cells := [{ filled := true, id := 0 }], width := 1, height := 1 },
        cur_part := { exists_ := false, pos := (0, 0) },
        stuck_particles := 1, is_complete := true, particles := 1,
        updates := 5, paused := false, grid_type := .Center,
        spawn_radius := none, do_resize := false } :=
  update_complete_noop 0 (fun _ => (0, 0)) _ rfl

/-! ### C8 — raising the target of a complete simulation reopens it -/

/-- C8: from a complete state whose target equals its stuck count, raising
the target clears `is_complete`, sets `paused`, and stores the new target. -/
theorem target_increase_reopens (s : DlaGrid) (p : Nat)
    (hc : s.is_complete = true) (heq : s.particles = s.stuck_particles)
    (hlt : s.particles < p) :
    handle_particles_changed s p =
      .ok { s with is_complete := false, paused := true, particles := p } := by
  have hne : s.particles ≠ p := Nat.ne_of_lt hlt
  simp [handle_particles_changed, hc, hne, hlt]

/-- Witness for C8: `is_complete = true`, `stuck_count = 100`,
`target_count = 100`, new target `150`. -/
theorem target_increase_reopens_witness :
    handle_particles_changed
      { grid := { cells := [], width := 0, height := 0 },
        cur_part := { exists_ := false, pos := (0, 0) },
        stuck_particles := 100, is_complete := true, particles := 100,
        updates := 0, paused := false, grid_type := .Center,
        spawn_radius := none, do_resize := false } 150
    = .ok
      { grid := { cells := [], width := 0, height := 0 },
        cur_part := { exists_ := false, pos := (0, 0) },
        stuck_particles := 100, is_complete := false, particles := 150,
        updates := 0, paused := true, grid_type := .Center,
        spawn_radius := none, do_resize := false } :=
  target_increase_reopens _ 150 rfl rfl (by decide)

/-! ### C2 — location of the Center seed -/

/-- C2: at `width = height = 5` the Center seed fills flat index `14`
(position `(4, 2)`), not index `12` (position `(2, 2)`) as the claim states:
the code computes `width * height / 2 + width / 2`, which differs from the
intended centered index `width / 2 + (height / 2) * width` whenever `height`
is odd. -/
theorem cells_center_five_five :
    (cells_center 5 5).map (fun l => (l.getD 12 false, l.getD 14 false, l.count true))
      = some (false, true, 1) := by decide

/-! ### C5 — locations of the FourDots seed -/

/-- Counterexample to C5: at `width = height = 5` the claimed dot position
`(2 * width / 3, height / 3) = (3, 1)` (flat index 8) is NOT filled; the code
fills `((width / 3) * 2, height / 3) = (2, 1)` (flat index 7) instead. -/
theorem four_dots_claimed_position_cex :
    (cells_four_dots 5 5).map (fun l => (l.getD 8 false, l.getD 7 false))
      = some (false, true) := by decide

/-- The amended FourDots pattern: exactly the flat indices of
`((w/3), (h/3))`, `((w/3)*2, (h/3))`, `((w/3), (h/3)*2)`, `((w/3)*2, (h/3)*2)`
are filled (positions that coincide for small grids collapse). -/
def fourDotsSpecCells (w h : Nat) : List Bool :=
  (List.range (w * h)).map fun i =>
    decide (i = get_idx w (w / 3) (h / 3) ∨ i = get_idx w ((w / 3) * 2) (h / 3) ∨
            i = get_idx w (w / 3) ((h / 3) * 2) ∨ i = get_idx w ((w / 3) * 2) ((h / 3) * 2))

/-- C5 (amended): for every positive `w`, `h` (with `w * h` representable),
the FourDots seed fills exactly the flat indices of `((w/3), (h/3))`,
`((w/3)*2, (h/3))`, `((w/3), (h/3)*2)`, `((w/3)*2, (h/3)*2)` — the source's
`tl_x * 2` rather than the claim's `2 * width / 3` — and no other cell. -/
theorem four_dots_positions (w h : Nat) (hw : 0 < w) (hh : 0 < h)
    (hsz : w * h < 2 ^ 64) :
    cells_four_dots w h = some (fourDotsSpecCells w h) := by
  have hx1 : w / 3 < w := by omega
  have hx2 : w / 3 * 2 < w := by omega
  have hy1 : h / 3 < h := by omega
  have hy2 : h / 3 * 2 < h := by omega
  have hi1 := get_idx_lt hx1 hy1
  have hi2 := get_idx_lt hx2 hy1
  have hi3 := get_idx_lt hx1 hy2
  have hi4 := get_idx_lt hx2 hy2
  have hempty : cells_empty w h = some (List.replicate (w * h) false) := by
    have : ¬(w = 0 ∨ h = 0) := by omega
    unfold cells_empty
    rw [if_neg this, if_pos hsz]
  simp only [cells_four_dots, hempty, Option.some_bind, setTrue,
             List.length_replicate, List.length_set, hi1, hi2, hi3, hi4,
             if_pos, Option.some.injEq]
  apply List.ext_getElem
  · simp [fourDotsSpecCells]
  · intro n h1 h2
    simp only [fourDotsSpecCells, List.getElem_map, List.getElem_range,
               List.getElem_set, List.getElem_replicate]
    by_cases e1 : get_idx w (w / 3) (h / 3) = n <;>
      by_cases e2 : get_idx w (w / 3 * 2) (h / 3) = n <;>
        by_cases e3 : get_idx w (w / 3) (h / 3 * 2) = n <;>
          by_cases e4 : get_idx w (w / 3 * 2) (h / 3 * 2) = n <;>
            simp_all [eq_comm]

/-- Witness for the amended C5 at `w = h = 9` (the spec's concrete example,
where both formulas agree: dots at `(3,3)`, `(6,3)`, `(3,6)`, `(6,6)`). -/
theorem four_dots_positions_witness :
    cells_four_dots 9 9 = some (fourDotsSpecCells 9 9) :=
  four_dots_positions 9 9 (by decide) (by decide) (by decide)

/-! ### C10 — the Circle seed's fixed radius and its precondition -/

/-- C10: building a Circle-seeded grid (whose ring radius is fixed by
`Grid::from` at `min(width, height) / 10`; the constructor takes no radius)
succeeds exactly when `min(width, height) ≥ 2`: the radius assertion
`radius < width / 2 && radius < height / 2` then holds, while
`min(width, height) ≤ 1` makes construction abort.  `width` and `height`
come from `u32` values, hence the `2 ^ 32` bounds. -/
theorem circle_fixed_radius (rand : Nat → Nat × Nat) (w h : Nat)
    (hw : w < 2 ^ 32) (hh : h < 2 ^ 32) :
    (Grid.from rand .Circle w h).isSome = true ↔ 2 ≤ min w h := by
  have hmul : w * h < 2 ^ 64 := by
    calc w * h < 2 ^ 32 * 2 ^ 32 := Nat.mul_lt_mul'' hw hh
      _ = 2 ^ 64 := by norm_num
  by_cases h0 : w = 0 ∨ h = 0
  · have hmin : min w h = 0 := by
      rcases h0 with h0 | h0 <;> simp [h0, Nat.min_eq_zero_iff]
    have hempty : cells_empty w h = none := by
      unfold cells_empty
      rw [if_pos h0]
    simp [Grid.from, cells_circle, hempty, hmin]
  · have hempty : cells_empty w h = some (List.replicate (w * h) false) := by
      unfold cells_empty
      rw [if_neg h0, if_pos hmul]
    have hwm : min w h ≤ w := Nat.min_le_left _ _
    have hhm : min w h ≤ h := Nat.min_le_right _ _
    by_cases hguard : min w h / 10 < w / 2 ∧ min w h / 10 < h / 2
    · have h2 : 2 ≤ min w h := by
        have h2w : 2 ≤ w := by omega
        have h2h : 2 ≤ h := by omega
        exact le_min h2w h2h
      simp [Grid.from, cells_circle, hempty, hguard, h2]
    · have h2 : ¬2 ≤ min w h := by omega
      simp [Grid.from, cells_circle, hempty, hguard, h2]

/-- Witness for C10: construction succeeds at `5 × 5` and fails at `1 × 5`. -/
theorem circle_fixed_radius_witness :
    ((Grid.from (fun _ => (0, 0)) .Circle 5 5).isSome = true ↔ 2 ≤ min 5 5) ∧
    ((Grid.from (fun _ => (0, 0)) .Circle 1 5).isSome = true ↔ 2 ≤ min 1 5) :=
  ⟨circle_fixed_radius (fun _ => (0, 0)) 5 5 (by decide) (by decide),
   circle_fixed_radius (fun _ => (0, 0)) 1 5 (by decide) (by decide)⟩

/-! ### Round-trip lemmas for the bincode model -/

theorem parseLE_serLE (k : Nat) (n : Nat) (rest : List Nat)
    (h : n < 256 ^ k) : parseLE k (serLE k n ++ rest) = some (n, rest) := by
  induction k generalizing n rest with
  | zero =>
    have : n = 0 := by simpa using h
    simp [serLE, parseLE, this]
  | succ k ih =>
    have hdiv : n / 256 < 256 ^ k := by
      rw [Nat.div_lt_iff_lt_mul (by norm_num : 0 < 256)]
      rw [pow_succ] at h
      exact h
    have ihh := ih (n / 256) rest hdiv
    simp only [serLE, List.cons_append, parseLE, List.append_eq, ihh]
    rw [Nat.mod_add_div n 256]

theorem parseBool_serBool (b : Bool) (rest : List Nat) :
    parseBool (serBool b ++ rest) = some (b, rest) := by
  cases b <;> rfl

theorem parseParticle_serParticle (p : Particle) (rest : List Nat)
    (h : p.id < 2 ^ 64) : parseParticle (serParticle p ++ rest) = some (p, rest) := by
  have h8 : p.id < 256 ^ 8 := by
    have : (256 : Nat) ^ 8 = 2 ^ 64 := by norm_num
    omega
  simp [parseParticle, serParticle, List.append_assoc, parseBool_serBool,
        parseLE_serLE 8 p.id rest h8]

theorem parseParticles_serParticles (l : List Particle) (rest : List Nat)
    (h : ∀ p ∈ l, p.id < 2 ^ 64) :
    parseParticles l.length (serParticles l ++ rest) = some (l, rest) := by
  induction l generalizing rest with
  | nil => rfl
  | cons p ps ih =>
    have hp : p.id < 2 ^ 64 := h p (by simp)
    have hps : ∀ q ∈ ps, q.id < 2 ^ 64 := fun q hq => h q (by simp [hq])
    simp [serParticles, parseParticles, List.append_assoc,
          parseParticle_serParticle p _ hp, ih _ hps]

theorem deserialize_serialize (g : Grid) (hwf : wfGrid g) :
    deserializeGrid (serializeGrid g) = some g := by
  obtain ⟨hlen, hw, hh, hids⟩ := hwf
  have h88 : (256 : Nat) ^ 8 = 2 ^ 64 := by norm_num
  have hlen8 : g.cells.length < 256 ^ 8 := by omega
  have hw8 : g.width < 256 ^ 8 := by omega
  have hh8 : g.height < 256 ^ 8 := by omega
  have hlast := parseLE_serLE 8 g.height [] hh8
  rw [List.append_nil] at hlast
  simp [deserializeGrid, serializeGrid, List.append_assoc,
        parseLE_serLE 8 g.cells.length _ hlen8,
        parseParticles_serParticles g.cells _ hids,
        parseLE_serLE 8 g.width _ hw8, hlast]

/-! ### C1 — save/load round trip -/

/-- C1: saving a grid and loading the produced `.gz` file back yields a
structurally equal grid.  `comp`/`decomp` model the external gzip binary,
assumed lossless (`decomp ∘ comp = id`); the bincode encoding itself is
modelled byte-exactly.  The `wfGrid` bounds hold of every Rust `Grid`
because `usize` is 64-bit. -/
theorem save_load_roundtrip (comp decomp : List Nat → List Nat)
    (hinv : ∀ bs, decomp (comp bs) = bs) (g : Grid) (hwf : wfGrid g) :
    from_file true false decomp (some (to_file comp g)) = .ok (some g) := by
  simp [from_file, to_file, hinv, deserialize_serialize g hwf]

/-- Witness for C1 on a concrete one-cell grid with the identity
compressor. -/
theorem save_load_roundtrip_witness :
    from_file true false (fun bs => bs)
        (some (to_file (fun bs => bs)
          { cells := [{ filled := true, id := 3 }], width := 1, height := 1 }))
      = .ok (some { cells := [{ filled := true, id := 3 }], width := 1, height := 1 }) :=
  save_load_roundtrip (fun bs => bs) (fun bs => bs) (fun _ => rfl) _ (by decide)

/-! ### C4 — load error handling -/

/-- Counterexample to C4: bytes that fail to deserialize (here the empty
file) do NOT make `from_file` return an absent result — the code calls
`bincode::deserialize(&serialized).unwrap()`, which panics. -/
theorem from_file_decode_panic_cex :
    from_file false false (fun bs => bs) (some []) =
      .error "called Option.unwrap on a deserialization error" := rfl

/-- C4 (amended): `from_file` returns an absent result on decompression
diagnostics and on read failure, but a deserialization failure panics via
`unwrap` instead of returning an absent result. -/
theorem from_file_error_handling (decomp : List Nat → List Nat)
    (stored : Option (List Nat)) (isGz : Bool) (bs : List Nat)
    (hbad : deserializeGrid bs = none) :
    from_file true true decomp stored = .ok none ∧
    from_file isGz false decomp none = .ok none ∧
    from_file false false decomp (some bs) =
      .error "called Option.unwrap on a deserialization error" := by
  refine ⟨by simp [from_file], ?_, ?_⟩
  · cases isGz <;> simp [from_file]
  · simp [from_file, hbad]

/-- Witness for the amended C4 at concrete inputs (undeserializable bytes:
the empty list). -/
theorem from_file_error_handling_witness :
    from_file true true (fun bs => bs) (some [0]) = .ok none ∧
    from_file true false (fun bs => bs) none = .ok none ∧
    from_file false false (fun bs => bs) (some [7]) =
      .error "called Option.unwrap on a deserialization error" :=
  from_file_error_handling (fun bs => bs) (some [0]) true [7] (by decide)

/-! ### C6 — random_walk safety -/

/-- C6: when `(x, y)` has at least one in-bounds unfilled Moore neighbor,
`random_walk` returns a position that is within grid bounds and whose cell
is unfilled at call time; when no such neighbor exists, it raises a hard
failure (`panic!`, modelled as `.error`) instead of returning. -/
theorem random_walk_safe (g : Grid) (x y r : Nat) :
    ((∃ p ∈ get_neighbors x y, valid_grid_pos g p = true ∧
        g.filled (get_idx g.width p.1.toNat p.2.toNat) = false) →
      Except.map
        (fun q => decide (q.1 < g.width) && decide (q.2 < g.height) &&
                  !(g.filled (get_idx g.width q.1 q.2)))
        (random_walk g x y r) = .ok true) ∧
    ((∀ p ∈ get_neighbors x y, ¬(valid_grid_pos g p = true ∧
        g.filled (get_idx g.width p.1.toNat p.2.toNat) = false)) →
      random_walk g x y r =
        .error "No neighbors found for random walk! This is a bug") := by
  constructor
  · rintro ⟨p, hpmem, hpv, hpf⟩
    have hPp : (valid_grid_pos g p &&
        !(g.filled (get_idx g.width p.1.toNat p.2.toNat))) = true := by
      rw [hpv, hpf]
      rfl
    have hpL : p ∈ valid_neighbors g x y :=
      List.mem_filter.mpr ⟨hpmem, hPp⟩
    rcases hcase : valid_neighbors g x y with _ | ⟨q, qs⟩
    · rw [hcase] at hpL
      cases hpL
    · set c := (q :: qs).getD (r % (q :: qs).length) q with hc
      have hlen : r % (q :: qs).length < (q :: qs).length :=
        Nat.mod_lt _ (by simp)
      have hcmem : c ∈ q :: qs := by
        rw [hc, List.getD_eq_getElem _ _ hlen]
        exact List.getElem_mem hlen
      have hcfilter : c ∈ valid_neighbors g x y := by
        rw [hcase]
        exact hcmem
      rw [valid_neighbors] at hcfilter
      obtain ⟨-, hP⟩ := List.mem_filter.mp hcfilter
      rw [Bool.and_eq_true, Bool.not_eq_true'] at hP
      obtain ⟨hv, hfc⟩ := hP
      unfold valid_grid_pos at hv
      simp only [Bool.and_eq_true, decide_eq_true_eq] at hv
      obtain ⟨⟨⟨hxlt, hxge⟩, hylt⟩, hyge⟩ := hv
      have hxa : c.1.toNat < g.width := by omega
      have hya : c.2.toNat < g.height := by omega
      have hrw : random_walk g x y r = .ok (c.1.toNat, c.2.toNat) := by
        unfold random_walk
        rw [hcase]
      rw [hrw]
      simp [Except.map, hxa, hya, hfc]
  · intro hnone
    have hL : valid_neighbors g x y = [] := by
      apply List.filter_eq_nil_iff.mpr
      intro a ha
      have := hnone a ha
      rw [Bool.and_eq_true, Bool.not_eq_true']
      tauto
    simp [random_walk, hL]

/-- A concrete 2×2 grid with exactly its last cell filled, used by the C6
witness. -/
def walkWitnessGrid : Grid :=
  { cells := [{ filled := false, id := 0 }, { filled := false, id := 0 },
              { filled := false, id := 0 }, { filled := true, id := 0 }],
    width := 2, height := 2 }

/-- Witness for C6 on `walkWitnessGrid`: from `(0, 0)` the walker has
unfilled in-bounds neighbors, so the walk returns an in-bounds unfilled
position. -/
theorem random_walk_safe_witness :
    Except.map
      (fun q => decide (q.1 < walkWitnessGrid.width) &&
                decide (q.2 < walkWitnessGrid.height) &&
                !(walkWitnessGrid.filled (get_idx walkWitnessGrid.width q.1 q.2)))
      (random_walk walkWitnessGrid 0 0 0) = .ok true :=
  (random_walk_safe walkWitnessGrid 0 0 0).1 ⟨(1, 0), by decide, by decide, by decide⟩

/-! ### Engine phase lemmas -/

theorem random_loc_stuck (draws : Nat → Nat × Nat) (s : DlaGrid) :
    ((random_loc draws s).2).stuck_particles = s.stuck_particles := by
  unfold random_loc
  dsimp only
  split <;> rfl

theorem spawn_or_move_stuck (rwr : Nat) (draws : Nat → Nat × Nat)
    (s s2 : DlaGrid) (h : spawn_or_move rwr draws s = .ok s2) :
    s2.stuck_particles = s.stuck_particles := by
  unfold spawn_or_move at h
  by_cases he : s.cur_part.exists_ = true
  · rw [if_pos he] at h
    rcases hw : random_walk s.grid s.cur_part.pos.1 s.cur_part.pos.2 rwr with e | v
    · rw [hw] at h
      cases h
    · rw [hw] at h
      cases h
      rfl
  · rw [if_neg he] at h
    cases h
    exact random_loc_stuck draws s

theorem stick_phase_is_complete (s : DlaGrid) :
    (stick_phase s).is_complete = s.is_complete := by
  unfold stick_phase
  split <;> rfl

theorem fill_phase_is_complete (s : DlaGrid) :
    (fill_phase s).is_complete = s.is_complete := rfl

theorem complete_phase_keeps_complete (s : DlaGrid) (h : s.is_complete = true) :
    (complete_phase s).is_complete = true := by
  unfold complete_phase
  split <;> simp [h]

/-! ### C3 — id numbering of a freshly stuck particle -/

/-- The concrete 3×3 state used to refute C3's numbering: center seed stuck
(`stuck_count = 1`), active particle at `(0, 0)`. -/
def stickCexState : DlaGrid :=
  { grid := { cells := [{ filled := true, id := 0 }, { filled := false, id := 0 },
                        { filled := false, id := 0 }, { filled := false, id := 0 },
                        { filled := true, id := 0 }, { filled := false, id := 0 },
                        { filled := false, id := 0 }, { filled := false, id := 0 },
                        { filled := false, id := 0 }],
              width := 3, height := 3 },
    cur_part := { exists_ := true, pos := (0, 0) },
    stuck_particles := 1, is_complete := false, particles := 10,
    updates := 0, paused := false, grid_type := .Center,
    spawn_radius := none, do_resize := false }

/-- Counterexample to C3: from `stickCexState` (one stuck seed, `N = 1`) the
walker moves to `(1, 0)` and sticks; `stuck_count` becomes `2`
(the post-increment value), but the stuck cell receives `id = 3`
(`stuck_count + 1` after the increment), not `id = 2 = N + 1` as the claim
states. -/
theorem stick_id_cex :
    Except.map
        (fun t => (t.stuck_particles, (t.grid.cells.getD 1 default).id))
        (update 0 (fun _ => (0, 0)) stickCexState) = .ok (2, 3) ∧ (3 : Nat) ≠ 2 :=
  ⟨rfl, by decide⟩

/-- C3 (amended): whenever a step makes the active particle stick, the
engine increments `stuck_count` and assigns the stuck cell's id the
post-increment value of `stuck_count` PLUS ONE: the first particle to stick
after `N` seed particles receives `id = N + 2`. -/
theorem stick_id_numbering (rwr : Nat) (draws : Nat → Nat × Nat)
    (s s2 : DlaGrid) (hnc : s.is_complete = false)
    (hmove : spawn_or_move rwr draws { s with updates := s.updates + 1 } = .ok s2)
    (hstick : should_stick s2.grid s2.cur_part.pos.1 s2.cur_part.pos.2 = true)
    (hidx : get_idx s2.grid.width s2.cur_part.pos.1 s2.cur_part.pos.2
      < s2.grid.cells.length) :
    Except.map
        (fun t => (t.stuck_particles,
          (t.grid.cells.getD
            (get_idx s2.grid.width s2.cur_part.pos.1 s2.cur_part.pos.2)
            default).id))
        (update rwr draws s)
      = .ok (s.stuck_particles + 1, s.stuck_particles + 2) := by
  have hstuck2 : s2.stuck_particles = s.stuck_particles := by
    have h := spawn_or_move_stuck rwr draws
      { s with updates := s.updates + 1 } s2 hmove
    exact h
  have hupd : update rwr draws s =
      .ok (complete_phase (fill_phase (stick_phase s2))) := by
    unfold update
    rw [if_neg (by simp [hnc] : ¬(s.is_complete = true)), hmove]
  rw [hupd]
  have hstick_eq : stick_phase s2 =
      { s2 with cur_part := { s2.cur_part with exists_ := false },
                stuck_particles := s2.stuck_particles + 1,
                grid := s2.grid.set_id
                  (get_idx s2.grid.width s2.cur_part.pos.1 s2.cur_part.pos.2)
                  (s2.stuck_particles + 1 + 1) } := by
    unfold stick_phase
    rw [hstick]
    simp
  rw [hstick_eq]
  unfold fill_phase complete_phase Grid.set_fill Grid.set_id
  dsimp only
  have hlen1 : (modifyCell s2.grid.cells
      (get_idx s2.grid.width s2.cur_part.pos.1 s2.cur_part.pos.2)
      (fun p => { p with id := s2.stuck_particles + 1 + 1 })).length
      = s2.grid.cells.length := modifyCell_length _ _ _
  have hgd1 := getD_modifyCell_self s2.grid.cells
    (get_idx s2.grid.width s2.cur_part.pos.1 s2.cur_part.pos.2)
    (fun p => { p with id := s2.stuck_particles + 1 + 1 }) default hidx
  have hgd2 := getD_modifyCell_self
    (modifyCell s2.grid.cells
      (get_idx s2.grid.width s2.cur_part.pos.1 s2.cur_part.pos.2)
      (fun p => { p with id := s2.stuck_particles + 1 + 1 }))
    (get_idx s2.grid.width s2.cur_part.pos.1 s2.cur_part.pos.2)
    (fun p => { p with filled := true }) default (by rw [hlen1]; exact hidx)
  split <;>
    (simp only [Except.map]
     rw [hgd2]
     dsimp only
     rw [hgd1]
     dsimp only
     rw [hstuck2])

/-- Witness for the amended C3, applying it at `stickCexState`: the stuck
cell gets `id = 1 + 2 = 3`. -/
theorem stick_id_numbering_witness :
    Except.map
        (fun t => (t.stuck_particles, (t.grid.cells.getD 1 default).id))
        (update 0 (fun _ => (0, 0)) stickCexState) = .ok (1 + 1, 1 + 2) :=
  stick_id_numbering 0 (fun _ => (0, 0)) stickCexState
    { stickCexState with
        updates := 1,
        grid := (stickCexState.grid).set_fill 0 false,
        cur_part := { exists_ := true, pos := (1, 0) } }
    rfl rfl rfl (by decide)

/-! ### C7 — spawn-location retry exhaustion -/

theorem random_loc_go_invalid (s : DlaGrid) (draws : Nat → Nat × Nat) :
    ∀ fuel i, (∀ j, i ≤ j → j ≤ i + fuel → spawn_valid s (draws j) = false) →
      random_loc_go s draws i (fuel + 1) = (draws (i + fuel), true) := by
  intro fuel
  induction fuel with
  | zero =>
    intro i hinv
    simp [random_loc_go, hinv i (Nat.le_refl i) (Nat.le_refl i)]
  | succ f ih =>
    intro i hinv
    have h1 := hinv i (Nat.le_refl i) (by omega)
    rw [random_loc_go, h1]
    simp only [Bool.false_eq_true, if_false, Nat.succ_ne_zero]
    rw [show i + (f + 1) = (i + 1) + f by omega]
    exact ih (i + 1) (fun j hj1 hj2 => hinv j (by omega) (by omega))

/-- C7: (first clause) whenever each of the 1000 consecutive draws is
invalid — its cell is filled, or it lies inside the exclusion radius when one
is set — the spawn policy force-sets `is_complete` and returns the 1000th
(still invalid) draw; (second clause) in particular, on a grid where every
cell is filled, a single `step()` call terminates with `is_complete = true`
instead of looping forever. -/
theorem spawn_exhaustion (rwr : Nat) (draws : Nat → Nat × Nat) (s : DlaGrid) :
    ((∀ j, j < 1000 →
        s.grid.filled (get_idx s.grid.width (draws j).1 (draws j).2) = true ∨
        ∃ radius, s.spawn_radius = some radius ∧
          s.grid.dist_to_center (draws j).1 (draws j).2 ≤ radius) →
      random_loc draws s = (draws 999, { s with is_complete := true })) ∧
    ((∀ i, (draws i).1 < s.grid.width ∧ (draws i).2 < s.grid.height) →
     s.grid.cells.length = s.grid.width * s.grid.height →
     (∀ idx, idx < s.grid.cells.length →
       (s.grid.cells.getD idx default).filled = true) →
     s.is_complete = false →
     s.cur_part.exists_ = false →
      Except.map DlaGrid.is_complete (update rwr draws s) = .ok true) := by
  constructor
  · intro hinv
    have hsv : ∀ j, j ≤ 999 → spawn_valid s (draws j) = false := by
      intro j hj
      rcases hinv j (by omega) with hf | ⟨radius, hr, hd⟩
      · unfold spawn_valid
        rw [hf]
        simp
      · unfold spawn_valid
        rw [hr]
        have hnd : ¬(radius < s.grid.dist_to_center (draws j).1 (draws j).2) := by
          omega
        simp [hnd]
    have hgo : random_loc_go s draws 0 1000 = (draws 999, true) := by
      have h := random_loc_go_invalid s draws 999 0
        (fun j h1 h2 => hsv j (by omega))
      simpa using h
    simp [random_loc, hgo]
  · intro hdraws hlen hfull hnc hne
    have hinv : ∀ j, spawn_valid s (draws j) = false := by
      intro j
      obtain ⟨h1, h2⟩ := hdraws j
      have hidx : get_idx s.grid.width (draws j).1 (draws j).2
          < s.grid.cells.length := by
        rw [hlen]
        exact get_idx_lt h1 h2
      have hfill : s.grid.filled (get_idx s.grid.width (draws j).1 (draws j).2)
          = true := hfull _ hidx
      unfold spawn_valid
      rw [hfill]
      simp
    have hinv' : ∀ j, spawn_valid { s with updates := s.updates + 1 } (draws j)
        = false := fun j => hinv j
    have hgo' : random_loc_go { s with updates := s.updates + 1 } draws 0 1000
        = (draws 999, true) := by
      have h := random_loc_go_invalid { s with updates := s.updates + 1 } draws
        999 0 (fun j h1 h2 => hinv' j)
      simpa using h
    have hsom : spawn_or_move rwr draws { s with updates := s.updates + 1 } =
        .ok { s with updates := s.updates + 1, is_complete := true,
                     cur_part := { exists_ := true, pos := draws 999 } } := by
      unfold spawn_or_move
      rw [if_neg (by simpa using hne :
        ¬(({ s with updates := s.updates + 1 } : DlaGrid).cur_part.exists_ = true))]
      simp [random_loc, hgo']
    have hupd : update rwr draws s =
        .ok (complete_phase (fill_phase (stick_phase
          { s with updates := s.updates + 1, is_complete := true,
                   cur_part := { exists_ := true, pos := draws 999 } }))) := by
      unfold update
      rw [if_neg (by simp [hnc] : ¬(s.is_complete = true)), hsom]
    rw [hupd]
    have hcomp : (complete_phase (fill_phase (stick_phase
        { s with updates := s.updates + 1, is_complete := true,
                 cur_part := { exists_ := true, pos := draws 999 } }))).is_complete
        = true := by
      apply complete_phase_keeps_complete
      rw [fill_phase_is_complete, stick_phase_is_complete]
    simp [Except.map, hcomp]

/-- A concrete 5×5 state for the C7 witness's radius-driven case: every cell
is UNFILLED, but the exclusion radius (10) contains the whole grid, so every
draw is invalid through the radius test alone. -/
def radiusState : DlaGrid :=
  { grid := { cells := List.replicate 25 { filled := false, id := 0 },
              width := 5, height := 5 },
    cur_part := { exists_ := false, pos := (0, 0) },
    stuck_particles := 0, is_complete := false, particles := 10,
    updates := 0, paused := false, grid_type := .Center,
    spawn_radius := some 10, do_resize := false }

/-- The concrete fully filled 2×2 state used by the C7 witness. -/
def exhaustState : DlaGrid :=
  { grid := { cells := [{ filled := true, id := 0 }, { filled := true, id := 0 },
                        { filled := true, id := 0 }, { filled := true, id := 0 }],
              width := 2, height := 2 },
    cur_part := { exists_ := false, pos := (0, 0) },
    stuck_particles := 4, is_complete := false, particles := 10,
    updates := 0, paused := false, grid_type := .Center,
    spawn_radius := none, do_resize := false }

/-- Witness for C7: the policy gives up on `radiusState` (all 1000 draws
invalid through the exclusion radius alone, every cell unfilled), gives up on
`exhaustState` (all 1000 draws invalid through filled cells), and one step on
the fully filled `exhaustState` flips `is_complete`. -/
theorem spawn_exhaustion_witness :
    random_loc (fun _ => (0, 0)) radiusState =
      ((0, 0), { radiusState with is_complete := true }) ∧
    random_loc (fun _ => (0, 0)) exhaustState =
      ((0, 0), { exhaustState with is_complete := true }) ∧
    Except.map DlaGrid.is_complete (update 0 (fun _ => (0, 0)) exhaustState)
      = .ok true :=
  ⟨(spawn_exhaustion 0 (fun _ => (0, 0)) radiusState).1
      (fun _ _ => Or.inr ⟨10, rfl, by
        rw [show radiusState.grid.dist_to_center 0 0 = Nat.sqrt 8 from by
          norm_num [radiusState, Grid.dist_to_center, distance]]
        exact (Nat.sqrt_le_self 8).trans (by norm_num)⟩),
   (spawn_exhaustion 0 (fun _ => (0, 0)) exhaustState).1
      (fun _ _ => Or.inl (by decide)),
   (spawn_exhaustion 0 (fun _ => (0, 0)) exhaustState).2
      (fun _ => ⟨(by decide : (0 : Nat) < 2), (by decide : (0 : Nat) < 2)⟩)
      rfl (by decide) rfl rfl⟩

end RDLA
